import Mathlib

/-!
Verification of the DocuClear client-side PDF viewer core
(`DocumentViewer` / `PdfPage` in the viewer component, plus
`handleJumpToLocation` in `Analyzer.tsx`).

Conventions of the embedding:
* JS numbers that hold scale factors and pixel heights are modelled as `ℚ`
  (exact arithmetic; the source only adds, compares, clamps).
* JS strings are modelled as `List Char`.
* React component state is modelled as explicit state records; effect bodies
  and event handlers become step functions over those records.
-/

namespace DocuClear

/-! ### Zoom (DocumentViewer.zoom)

Source: `setScale(prev => Math.min(Math.max(0.5, prev + delta), 2.5))`. -/

def zoom (prev delta : ℚ) : ℚ :=
  min (max (1/2) (prev + delta)) (5/2)

/-- Default scale installed on decode success: `setScale(0.9)`. -/
def defaultScale : ℚ := 9/10

/-! ### estimatedPageHeight (DocumentViewer.handleDimensionsResolved)

Source: `setEstimatedPageHeight(prev => prev ? prev : height)`.
`prev` is a JS `number | undefined`; the conditional tests JS truthiness, so
`undefined` and `0` both select `height`, any nonzero number keeps `prev`. -/

def handleDimensionsResolved (prev : Option ℚ) (height : ℚ) : Option ℚ :=
  match prev with
  | some p => if p = 0 then some height else some p
  | none => some height

/-! ### Location-reference parsing (Analyzer.handleJumpToLocation)

Source:
```
let pageMatch = location.match(/page\s*[=]?\s*(\d+)/i);
if (pageMatch && pageMatch[1]) { setViewerLocation(pageMatch[1]); }
else { setViewerLocation(location.replace('#', '')); }
```
The regex is embedded as a left-to-right scan: at each start position try the
literal `page` case-insensitively, then `\s*`, an optional `=`, `\s*`, then a
nonempty maximal digit run (the capture).  Since whitespace, `=` and digits
are disjoint character classes, the greedy scan coincides with the regex
engine's backtracking search. -/

/-- JS `\s` on the ASCII range: space, tab, newline, carriage return,
vertical tab, form feed. -/
def isWs (c : Char) : Bool :=
  c == ' ' || c == '\t' || c == '\n' || c == '\r' || c == '\x0b' || c == '\x0c'

def skipWs : List Char → List Char
  | [] => []
  | c :: cs => if isWs c then skipWs cs else c :: cs

/-- Split off the maximal leading run of decimal digits. -/
def takeDigits : List Char → List Char × List Char
  | [] => ([], [])
  | c :: cs =>
    if c.isDigit then
      let p := takeDigits cs
      (c :: p.1, p.2)
    else ([], c :: cs)

/-- Numeric value of a digit string (radix 10). -/
def digitsToNat (ds : List Char) : Nat :=
  ds.foldl (fun n c => 10 * n + (c.toNat - '0'.toNat)) 0

/-- Tail of the regex after the literal `page`: `\s*[=]?\s*(\d+)`. -/
def pageTail (rest : List Char) : Option (List Char) :=
  let r1 := skipWs rest
  let r2 := match r1 with
    | '=' :: t => t
    | other => other
  let r3 := skipWs r2
  let ds := (takeDigits r3).1
  if ds.isEmpty then none else some ds

/-- Attempt to match `/page\s*[=]?\s*(\d+)/i` anchored at the head of the
list; returns the captured digit run. -/
def matchPageAt (l : List Char) : Option (List Char) :=
  match l with
  | c0 :: c1 :: c2 :: c3 :: rest =>
    if c0.toLower == 'p' && c1.toLower == 'a' && c2.toLower == 'g' && c3.toLower == 'e' then
      pageTail rest
    else none
  | _ => none

/-- First match of `/page\s*[=]?\s*(\d+)/i` over the whole string
(JS `String.match` with a non-global regex). -/
def findPageMatch : List Char → Option (List Char)
  | [] => none
  | c :: cs =>
    match matchPageAt (c :: cs) with
    | some ds => some ds
    | none => findPageMatch cs

/-- JS `location.replace('#', '')` with a plain-string pattern: removes the
first occurrence of `#` only. -/
def stripHash : List Char → List Char
  | [] => []
  | c :: cs => if c = '#' then cs else c :: stripHash cs

/-- The string Analyzer.handleJumpToLocation stores into `viewerLocation`:
the captured page digits when the page pattern matches, otherwise the
reference with its first `#` removed. -/
def handleJumpToLocation (location : List Char) : List Char :=
  match findPageMatch location with
  | some ds => ds
  | none => stripHash location

/-! ### DocumentViewer location effect

Source:
```
if (location && isPdf && numPages > 0) {
  const targetPage = parseInt(location, 10);
  if (!isNaN(targetPage) && targetPage > 0 && targetPage <= numPages) {
    const pageEl = document.getElementById(`page-` + targetPage);
    if (pageEl) { pageEl.scrollIntoView(...); pageEl.focus(); }
  }
}
```
The effect's observable outcome is the page index scrolled into view and
focused (or nothing), so it is embedded as `Option Nat`. -/

def digitsVal (s : List Char) : Option Nat :=
  let ds := (takeDigits s).1
  if ds.isEmpty then none else some (digitsToNat ds)

/-- JS `parseInt(s, 10)`: skip leading whitespace, optional sign, then a
nonempty leading digit run; `none` models `NaN`. -/
def parseIntJS (s : List Char) : Option Int :=
  match skipWs s with
  | [] => none
  | c :: rest =>
    if c = '-' then (digitsVal rest).map (fun n => -(n : Int))
    else if c = '+' then (digitsVal rest).map (fun n => (n : Int))
    else (digitsVal (c :: rest)).map (fun n => (n : Int))

/-- Scroll-and-focus target of the location effect for a given
`viewerLocation` string and page count (for a mounted PDF document; the
page element `page-t` exists for every `1 ≤ t ≤ numPages`). -/
def locationEffectTarget (location : List Char) (numPages : Nat) : Option Nat :=
  if location.isEmpty then none
  else if numPages = 0 then none
  else
    match parseIntJS location with
    | some t => if 0 < t ∧ t ≤ (numPages : Int) then some t.toNat else none
    | none => none

/-- End-to-end jump: Analyzer's reference parsing composed with the
viewer's location effect. -/
def jump (locationRef : List Char) (numPages : Nat) : Option Nat :=
  locationEffectTarget (handleJumpToLocation locationRef) numPages

/-! ### PdfPage component state

State of one mounted `PdfPage` component: the `isVisible` / `isRendered`
flags, the `renderTaskRef` mutable ref, plus the observable consequences of
pdf.js render tasks: `committed` is the id of the task whose pixels are on
the page's canvas, and `cancelled` records every task on which `cancel()`
has been called.

Events:
* `intersect b` — the IntersectionObserver callback fires with
  `entry.isIntersecting = b`; on `true` the component sets `isVisible` and
  disconnects the observer; after disconnection no callbacks fire.
* `renderStart tid` — one run of the render effect reaches `page.render`:
  the effect-cleanup and the in-body guard have cancelled the previously
  referenced task, and `renderTaskRef.current` now holds the new task.
* `renderComplete tid` — task `tid`'s render finishes.  Modelled from the
  spec: the pdf.js RenderTask capability guarantees a cancelled task does
  not commit pixels or report completion (its promise rejects with
  `RenderingCancelledException`, which the source swallows); an
  uncancelled completion paints the canvas and sets `isRendered`.
* `cleanup` — the effect cleanup on unmount: cancels the referenced task.
-/

structure PdfPageState where
  isVisible : Bool
  observerDisconnected : Bool
  isRendered : Bool
  committed : Option Nat
  renderTaskRef : Option Nat
  cancelled : List Nat
deriving DecidableEq, Repr

/-- Mount-time state: `useState(false)` twice, empty refs. -/
def initPageState : PdfPageState :=
  { isVisible := false, observerDisconnected := false, isRendered := false,
    committed := none, renderTaskRef := none, cancelled := [] }

inductive PageEvent where
  | intersect (isIntersecting : Bool)
  | renderStart (tid : Nat)
  | renderComplete (tid : Nat)
  | cleanup
deriving DecidableEq, Repr

/-- Cancel the task currently held in `renderTaskRef` (if any); the ref
itself is left in place, as in the source cleanup. -/
def cancelCurrent (s : PdfPageState) : PdfPageState :=
  match s.renderTaskRef with
  | some t => { s with cancelled := t :: s.cancelled }
  | none => s

def pageStep (s : PdfPageState) (e : PageEvent) : PdfPageState :=
  match e with
  | .intersect b =>
    if s.observerDisconnected then s
    else if b then { s with isVisible := true, observerDisconnected := true }
    else s
  | .renderStart tid => { cancelCurrent s with renderTaskRef := some tid }
  | .renderComplete tid =>
    if tid ∈ s.cancelled then s
    else { s with committed := some tid, isRendered := true }
  | .cleanup => cancelCurrent s

def runPage (s : PdfPageState) (evs : List PageEvent) : PdfPageState :=
  evs.foldl pageStep s

/-! ### DocumentViewer document-level state

The initial-load effect (on a new `fileData`) runs
`setError(null); setPdfDoc(null); setNumPages(0); setEstimatedPageHeight(undefined)`;
setting `pdfDoc` to `null` unmounts every `PdfPage`, and each unmount
cleanup cancels the task in that page's `renderTaskRef`.  On decode success
`numPages` fresh `PdfPage` components mount with `initPageState`. -/

structure ViewerDocState where
  pdfDoc : Option Nat
  numPages : Nat
  estimatedPageHeight : Option ℚ
  pages : List PdfPageState
deriving DecidableEq, Repr

/-- Task ids cancelled by unmounting a list of pages: each mounted page's
cleanup calls `cancel()` on its `renderTaskRef.current` when non-null. -/
def unmountPages (pages : List PdfPageState) : List Nat :=
  pages.filterMap (fun p => p.renderTaskRef)

/-- The reset performed at the top of the load effect for a new document:
returns the wiped viewer state together with the task ids that got
cancelled by the unmounts. -/
def loadNewDocument (s : ViewerDocState) : ViewerDocState × List Nat :=
  ({ pdfDoc := none, numPages := 0, estimatedPageHeight := none, pages := [] },
   unmountPages s.pages)

/-- Fresh page components mounted after a successful decode of an
`n`-page document. -/
def mountPages (n : Nat) : List PdfPageState :=
  List.replicate n initPageState

/-! ### DocumentViewer load/error state machine -/

inductive ErrorType where
  | password
  | corrupt
  | generic
deriving DecidableEq, Repr

/-- Classification in the `catch` of `loadPdf`, switching on the pdf.js
exception name (`err.name`). -/
def classifyLoadError (name : String) : ErrorType :=
  if name = "PasswordException" then .password
  else if name = "InvalidPDFException" then .corrupt
  else if name = "MissingPDFException" then .corrupt
  else .generic

/-- User-visible message chosen in the same `catch`. -/
def loadErrorMessage (name : String) : String :=
  if name = "PasswordException" then
    "This document is password protected. Please remove the password and try again."
  else if name = "InvalidPDFException" then
    "The PDF file appears to be corrupted or invalid. Please try another file."
  else if name = "MissingPDFException" then
    "The PDF file appears to be corrupted or invalid. Please try another file."
  else
    "Could not render this document. It may be using an unsupported format or feature."

/-- Message set by the `<img>` element's `onError` handler. -/
def imgErrorMessage : String := "Image could not be loaded."

/-- Top-level `DocumentViewer` state for one mounted viewer (one
`fileData`/`mimeType` pair; the component remounts per document in
`Analyzer`, so `isPdf` is fixed for a session). -/
structure DVState where
  isPdf : Bool
  error : Option String
  errorType : ErrorType
  pdfDoc : Option Nat
  numPages : Nat
  scale : ℚ
deriving DecidableEq, Repr

/-- Mount-time state: `useState` defaults (`error = null`,
`errorType = 'generic'`, `pdfDoc = null`, `numPages = 0`, `scale = 1.0`). -/
def initDVState (isPdf : Bool) : DVState :=
  { isPdf := isPdf, error := none, errorType := .generic,
    pdfDoc := none, numPages := 0, scale := 1 }

inductive DVEvent where
  | imgError
  | decodeOk (n : Nat)
  | decodeFail (name : String)
  | zoomBy (delta : ℚ)
deriving DecidableEq, Repr

/-- One handler firing.  `imgError` is the `<img onError>` handler, only
rendered in the non-PDF branch; `decodeOk`/`decodeFail` are the resolution
of `loadPdf`, which only runs in the PDF branch; `zoomBy` is the zoom
control (PDF toolbar). -/
def dvStep (s : DVState) (e : DVEvent) : DVState :=
  match e with
  | .imgError => if s.isPdf then s else { s with error := some imgErrorMessage }
  | .decodeOk n =>
    if s.isPdf then
      { s with pdfDoc := some n, numPages := n, scale := defaultScale, error := none }
    else s
  | .decodeFail name =>
    if s.isPdf then
      { s with error := some (loadErrorMessage name), errorType := classifyLoadError name }
    else s
  | .zoomBy delta => if s.isPdf then { s with scale := zoom s.scale delta } else s

def runDV (s : DVState) (evs : List DVEvent) : DVState :=
  evs.foldl dvStep s

/-- What the component returns: the early-return error screen when `error`
is set (showing the icon selected by `errorType`), otherwise the normal
viewer surface. -/
inductive Screen where
  | errorScreen (kind : ErrorType) (msg : String)
  | viewerScreen
deriving DecidableEq, Repr

def renderDV (s : DVState) : Screen :=
  match s.error with
  | some m => .errorScreen s.errorType m
  | none => .viewerScreen

/-! ### Session snapshot for jump idempotence

The location effect reads only the reference string, `isPdf` and
`numPages`; scroll position, rendered pages and prior jumps are not inputs.
Between two jumps of one document session only scrolling and page-render
completions happen — neither touches `numPages`. -/

structure ViewerSnapshot where
  numPages : Nat
  scrollPos : Int
  renderedPages : List Nat
deriving DecidableEq, Repr

inductive SessionEvent where
  | scrollTo (pos : Int)
  | pageRendered (p : Nat)
deriving DecidableEq, Repr

def sessionStep (s : ViewerSnapshot) : SessionEvent → ViewerSnapshot
  | .scrollTo pos => { s with scrollPos := pos }
  | .pageRendered p => { s with renderedPages := p :: s.renderedPages }

/-- Jump target resolved against a full session snapshot. -/
def jumpOnState (ref : List Char) (s : ViewerSnapshot) : Option Nat :=
  jump ref s.numPages

/-- Concrete viewer state used to instantiate reset properties: one loaded
document with a mounted page holding an in-flight render task. -/
def viewerExample : ViewerDocState :=
  { pdfDoc := some 1, numPages := 2, estimatedPageHeight := some 800,
    pages := [{ initPageState with isVisible := true, renderTaskRef := some 7 }] }

/-! ## Helper lemmas -/

theorem cancelCurrent_isVisible (s : PdfPageState) :
    (cancelCurrent s).isVisible = s.isVisible := by
  unfold cancelCurrent
  cases s.renderTaskRef <;> rfl

theorem pageStep_isVisible_mono (s : PdfPageState) (e : PageEvent)
    (h : s.isVisible = true) : (pageStep s e).isVisible = true := by
  cases e with
  | intersect b =>
    unfold pageStep
    by_cases hd : s.observerDisconnected
    · simp [hd, h]
    · cases b <;> simp [hd, h]
  | renderStart tid =>
    show (cancelCurrent s).isVisible = true
    rw [cancelCurrent_isVisible]; exact h
  | renderComplete tid =>
    unfold pageStep
    by_cases hc : tid ∈ s.cancelled <;> simp [hc, h]
  | cleanup =>
    show (cancelCurrent s).isVisible = true
    rw [cancelCurrent_isVisible]; exact h

theorem runPage_isVisible_mono (evs : List PageEvent) :
    ∀ s : PdfPageState, s.isVisible = true → (runPage s evs).isVisible = true := by
  induction evs with
  | nil => intro s h; exact h
  | cons e rest ih =>
    intro s h
    exact ih (pageStep s e) (pageStep_isVisible_mono s e h)

theorem pageStep_complete_cancelled (s : PdfPageState) (t : Nat)
    (h : t ∈ s.cancelled) : pageStep s (.renderComplete t) = s := by
  unfold pageStep; simp [h]

theorem pageStep_complete_live (s : PdfPageState) (t : Nat)
    (h : t ∉ s.cancelled) :
    pageStep s (.renderComplete t) = { s with committed := some t, isRendered := true } := by
  unfold pageStep; simp [h]

/-- Core cancellation argument: over a run consisting only of completions of
a cancelled task `t1` and a live task `t2`, the cancelled set is unchanged,
a completion of `t2` commits and nothing ever commits `t1`. -/
theorem runPage_completes (t1 t2 : Nat) (hne : t1 ≠ t2) :
    ∀ (evs : List PageEvent) (s : PdfPageState),
      (∀ e ∈ evs, e = PageEvent.renderComplete t1 ∨ e = PageEvent.renderComplete t2) →
      t1 ∈ s.cancelled → t2 ∉ s.cancelled →
      (runPage s evs).cancelled = s.cancelled ∧
      (PageEvent.renderComplete t2 ∈ evs → (runPage s evs).committed = some t2) ∧
      ((runPage s evs).committed = some t2 ∨ (runPage s evs).committed = s.committed) := by
  intro evs
  induction evs with
  | nil =>
    intro s _ _ _
    refine ⟨rfl, ?_, Or.inr rfl⟩
    intro hmem
    simp at hmem
  | cons e rest ih =>
    intro s hall h1 h2
    have hall' : ∀ e' ∈ rest,
        e' = PageEvent.renderComplete t1 ∨ e' = PageEvent.renderComplete t2 :=
      fun e' he' => hall e' (List.mem_cons_of_mem e he')
    rcases hall e (List.mem_cons_self e rest) with he | he
    · subst he
      have hstep : runPage s (PageEvent.renderComplete t1 :: rest) = runPage s rest := by
        show runPage (pageStep s (.renderComplete t1)) rest = runPage s rest
        rw [pageStep_complete_cancelled s t1 h1]
      obtain ⟨hc, himp, hdisj⟩ := ih s hall' h1 h2
      rw [hstep]
      refine ⟨hc, ?_, hdisj⟩
      intro hmem
      rcases List.mem_cons.mp hmem with heq | hmem'
      · exact absurd (by injection heq with h; exact h.symm) hne
      · exact himp hmem'
    · subst he
      have hstep : runPage s (PageEvent.renderComplete t2 :: rest)
          = runPage { s with committed := some t2, isRendered := true } rest := by
        show runPage (pageStep s (.renderComplete t2)) rest = _
        rw [pageStep_complete_live s t2 h2]
      obtain ⟨hc, _, hdisj⟩ :=
        ih { s with committed := some t2, isRendered := true } hall' h1 h2
      rw [hstep]
      refine ⟨hc, fun _ => ?_, ?_⟩
      · rcases hdisj with h | h
        · exact h
        · exact h
      · rcases hdisj with h | h
        · exact Or.inl h
        · exact Or.inl h

/-! ## Claim theorems -/

/-- C1: if a second render task is started for a page while the first is
still in flight (the render effect re-ran, e.g. on a scale change), the
first task is cancelled at the moment the second starts, and over any
subsequent completions of the two tasks that include the second task's
completion, the pixels committed for the page are the second task's; a late
completion of the first task never overwrites them. -/
theorem c1_second_render_wins (t1 t2 : Nat) (evs : List PageEvent)
    (hne : t1 ≠ t2)
    (hall : ∀ e ∈ evs, e = PageEvent.renderComplete t1 ∨ e = PageEvent.renderComplete t2)
    (hfin : PageEvent.renderComplete t2 ∈ evs) :
    t1 ∈ (runPage initPageState
        [PageEvent.renderStart t1, PageEvent.renderStart t2]).cancelled ∧
    (runPage initPageState
        ([PageEvent.renderStart t1, PageEvent.renderStart t2] ++ evs)).committed = some t2 ∧
    (runPage initPageState
        ([PageEvent.renderStart t1, PageEvent.renderStart t2] ++ evs)).committed ≠ some t1 := by
  have happ : runPage initPageState
      ([PageEvent.renderStart t1, PageEvent.renderStart t2] ++ evs) =
      runPage (runPage initPageState
        [PageEvent.renderStart t1, PageEvent.renderStart t2]) evs := by
    unfold runPage
    rw [List.foldl_append]
  have h1 : t1 ∈ (runPage initPageState
      [PageEvent.renderStart t1, PageEvent.renderStart t2]).cancelled := by
    show t1 ∈ [t1]
    exact List.mem_singleton_self t1
  have h2 : t2 ∉ (runPage initPageState
      [PageEvent.renderStart t1, PageEvent.renderStart t2]).cancelled := by
    show t2 ∉ [t1]
    simp [Ne.symm hne]
  obtain ⟨_, himp, _⟩ := runPage_completes t1 t2 hne evs _ hall h1 h2
  have hcommit := himp hfin
  refine ⟨h1, ?_, ?_⟩
  · rw [happ]; exact hcommit
  · rw [happ, hcommit]
    intro hbad
    exact hne (Option.some.inj hbad).symm

/-- C1 witness: tasks 0 then 1 started back to back; task 1 completes, then
task 0's late completion arrives; the committed pixels are task 1's. -/
theorem c1_second_render_wins_witness :
    0 ∈ (runPage initPageState
        [PageEvent.renderStart 0, PageEvent.renderStart 1]).cancelled ∧
    (runPage initPageState
        ([PageEvent.renderStart 0, PageEvent.renderStart 1] ++
          [PageEvent.renderComplete 1, PageEvent.renderComplete 0])).committed = some 1 ∧
    (runPage initPageState
        ([PageEvent.renderStart 0, PageEvent.renderStart 1] ++
          [PageEvent.renderComplete 1, PageEvent.renderComplete 0])).committed ≠ some 0 :=
  c1_second_render_wins 0 1 [PageEvent.renderComplete 1, PageEvent.renderComplete 0]
    (by decide) (by decide) (by decide)

/-- C2: the scale produced by the zoom handler always lies in
`[0.5, 2.5]`, for every starting scale and every delta. -/
theorem c2_zoom_clamped (prev delta : ℚ) :
    1/2 ≤ zoom prev delta ∧ zoom prev delta ≤ 5/2 := by
  unfold zoom
  exact ⟨le_min (le_max_left _ _) (by norm_num), min_le_right _ _⟩

/-- C3: loading a new document wipes the viewer: the document handle is
dropped, `numPages` and `estimatedPageHeight` are cleared, all page
components unmount (cancelling exactly the in-flight render tasks), and the
pages mounted for the next document all start invisible with no committed
pixels. -/
theorem c3_load_resets_state (s : ViewerDocState) :
    (loadNewDocument s).1.pdfDoc = none ∧
    (loadNewDocument s).1.numPages = 0 ∧
    (loadNewDocument s).1.estimatedPageHeight = none ∧
    (loadNewDocument s).1.pages = [] ∧
    (∀ t : Nat, t ∈ (loadNewDocument s).2 ↔ ∃ p ∈ s.pages, p.renderTaskRef = some t) ∧
    (∀ (n : Nat) (p : PdfPageState), p ∈ mountPages n →
      p.isVisible = false ∧ p.renderTaskRef = none ∧ p.committed = none) := by
  refine ⟨rfl, rfl, rfl, rfl, ?_, ?_⟩
  · intro t
    simp [loadNewDocument, unmountPages, List.mem_filterMap]
  · intro n p hp
    have hp' : p = initPageState := List.eq_of_mem_replicate (by simpa [mountPages] using hp)
    subst hp'
    exact ⟨rfl, rfl, rfl⟩

/-- C3 witness: resetting the example viewer drops the handle, cancels its
in-flight task 7, and freshly mounted pages are invisible. -/
theorem c3_load_resets_state_witness :
    (loadNewDocument viewerExample).1.pdfDoc = none ∧
    7 ∈ (loadNewDocument viewerExample).2 ∧
    initPageState.isVisible = false :=
  ⟨(c3_load_resets_state viewerExample).1,
   ((c3_load_resets_state viewerExample).2.2.2.2.1 7).mpr
     ⟨{ initPageState with isVisible := true, renderTaskRef := some 7 },
      by simp [viewerExample], rfl⟩,
   ((c3_load_resets_state viewerExample).2.2.2.2.2 1 initPageState
      (by simp [mountPages])).1⟩

/-- C4 counterexample: the dimensions-resolved callback assigns
`estimatedPageHeight := 0` on a first call reporting height 0, and the next
call overwrites it (JS truthiness treats the stored 0 as unset), so a later
call does not always leave the value unchanged. -/
theorem c4_estimated_height_counterexample :
    handleDimensionsResolved none 0 = some 0 ∧
    handleDimensionsResolved (handleDimensionsResolved none 0) 5 = some 5 ∧
    some (5 : ℚ) ≠ some (0 : ℚ) := by
  refine ⟨rfl, ?_, by norm_num⟩
  show handleDimensionsResolved (some 0) 5 = some 5
  simp [handleDimensionsResolved]

/-- C4 (amended): the first dimensions-resolved callback assigns
`estimatedPageHeight`; once the stored height is nonzero every later call
leaves it unchanged (only a stored zero — falsy in JS — can be replaced). -/
theorem c4_estimated_height_once_nonzero :
    (∀ h : ℚ, handleDimensionsResolved none h = some h) ∧
    (∀ p h : ℚ, p ≠ 0 → handleDimensionsResolved (some p) h = some p) ∧
    (∀ (h : ℚ) (hs : List ℚ), h ≠ 0 →
      List.foldl handleDimensionsResolved (some h) hs = some h) := by
  refine ⟨fun h => rfl, fun p h hp => by simp [handleDimensionsResolved, hp], ?_⟩
  intro h hs hh
  induction hs with
  | nil => rfl
  | cons x xs ih =>
    show List.foldl handleDimensionsResolved (handleDimensionsResolved (some h) x) xs = some h
    rw [show handleDimensionsResolved (some h) x = some h from by
      simp [handleDimensionsResolved, hh]]
    exact ih

/-- C4 witness: a stored height of 7 survives later calls, including calls
reporting 0 and other heights. -/
theorem c4_estimated_height_once_nonzero_witness :
    handleDimensionsResolved none 7 = some 7 ∧
    handleDimensionsResolved (some 7) 3 = some 7 ∧
    List.foldl handleDimensionsResolved (some 7) [0, 3, 11] = some 7 :=
  ⟨c4_estimated_height_once_nonzero.1 7,
   c4_estimated_height_once_nonzero.2.1 7 3 (by norm_num),
   c4_estimated_height_once_nonzero.2.2 7 [0, 3, 11] (by norm_num)⟩

/-- C5: a page's visibility flag is monotonic — once `isVisible` is true,
no later event of the page's session (observer callbacks, render starts or
completions, cleanups) resets it. -/
theorem c5_visibility_monotone (s : PdfPageState) (evs : List PageEvent)
    (h : s.isVisible = true) : (runPage s evs).isVisible = true :=
  runPage_isVisible_mono evs s h

/-- C5 witness: a visible page stays visible through an out-of-view
observer callback, a render start and a cleanup. -/
theorem c5_visibility_monotone_witness :
    (runPage { initPageState with isVisible := true, observerDisconnected := true }
      [PageEvent.intersect false, PageEvent.renderStart 0, PageEvent.cleanup]).isVisible = true :=
  c5_visibility_monotone _ _ rfl

/-- C8: decode failures are classified by the pdf.js exception name —
`PasswordException` (password required) maps to the password kind,
`InvalidPDFException` and `MissingPDFException` (invalid or missing
structure) to the corrupt kind, and every other name to generic; decode
success yields the ready state (document handle and `numPages` set, error
cleared, scale at the auto-fit default). -/
theorem c8_error_classification :
    (classifyLoadError "PasswordException" = ErrorType.password) ∧
    (classifyLoadError "InvalidPDFException" = ErrorType.corrupt) ∧
    (classifyLoadError "MissingPDFException" = ErrorType.corrupt) ∧
    (∀ name : String, name ≠ "PasswordException" → name ≠ "InvalidPDFException" →
      name ≠ "MissingPDFException" → classifyLoadError name = ErrorType.generic) ∧
    (∀ (s : DVState) (n : Nat), s.isPdf = true →
      (dvStep s (DVEvent.decodeOk n)).pdfDoc = some n ∧
      (dvStep s (DVEvent.decodeOk n)).numPages = n ∧
      (dvStep s (DVEvent.decodeOk n)).error = none ∧
      (dvStep s (DVEvent.decodeOk n)).scale = defaultScale) ∧
    (∀ (s : DVState) (name : String), s.isPdf = true →
      (dvStep s (DVEvent.decodeFail name)).errorType = classifyLoadError name ∧
      (dvStep s (DVEvent.decodeFail name)).error = some (loadErrorMessage name)) := by
  refine ⟨rfl, rfl, rfl, ?_, ?_, ?_⟩
  · intro name h1 h2 h3
    simp [classifyLoadError, h1, h2, h3]
  · intro s n hpdf
    simp [dvStep, hpdf]
  · intro s name hpdf
    simp [dvStep, hpdf]

/-- C8 witness: an unrecognized exception name classifies as generic; a
successful 4-page decode reaches the ready state; a password exception sets
the password kind. -/
theorem c8_error_classification_witness :
    classifyLoadError "UnknownError" = ErrorType.generic ∧
    (dvStep (initDVState true) (DVEvent.decodeOk 4)).numPages = 4 ∧
    (dvStep (initDVState true) (DVEvent.decodeFail "PasswordException")).errorType
      = ErrorType.password :=
  ⟨c8_error_classification.2.2.2.1 "UnknownError" (by decide) (by decide) (by decide),
   (c8_error_classification.2.2.2.2.1 (initDVState true) 4 rfl).2.1,
   by
     rw [(c8_error_classification.2.2.2.2.2 (initDVState true) "PasswordException" rfl).1]
     exact c8_error_classification.1⟩

theorem dvStep_isPdf (s : DVState) (e : DVEvent) : (dvStep s e).isPdf = s.isPdf := by
  cases e <;> unfold dvStep <;> by_cases h : s.isPdf <;> simp [h]

theorem runDV_image_invariant (evs : List DVEvent) :
    ∀ s : DVState, s.isPdf = false →
      (runDV s evs).isPdf = false ∧ (runDV s evs).errorType = s.errorType := by
  induction evs with
  | nil => intro s h; exact ⟨h, rfl⟩
  | cons e rest ih =>
    intro s h
    have hstep : (dvStep s e).isPdf = false := by rw [dvStep_isPdf]; exact h
    have het : (dvStep s e).errorType = s.errorType := by
      cases e <;> simp [dvStep, h]
    obtain ⟨h1, h2⟩ := ih (dvStep s e) hstep
    exact ⟨h1, h2.trans het⟩

/-- C10: in an image (non-PDF) viewer session, whatever happened before, a
failure to load the image puts the component into the error state with the
generic kind: the render is the full-surface "Unable to Preview" error
screen, not the normal viewer surface. -/
theorem c10_image_error_generic (evs : List DVEvent) :
    renderDV (runDV (initDVState false) (evs ++ [DVEvent.imgError])) =
      Screen.errorScreen ErrorType.generic imgErrorMessage := by
  obtain ⟨hpdf, het⟩ := runDV_image_invariant evs (initDVState false) rfl
  have happ : runDV (initDVState false) (evs ++ [DVEvent.imgError]) =
      dvStep (runDV (initDVState false) evs) DVEvent.imgError := by
    unfold runDV
    rw [List.foldl_append]
    rfl
  rw [happ]
  have hstep : dvStep (runDV (initDVState false) evs) DVEvent.imgError =
      { runDV (initDVState false) evs with error := some imgErrorMessage } := by
    unfold dvStep
    simp [hpdf]
  rw [hstep]
  unfold renderDV
  simp
  exact het

theorem takeDigits_digits : ∀ l : List Char, ∀ c ∈ (takeDigits l).1, c.isDigit = true := by
  intro l
  induction l with
  | nil => intro c hc; simp [takeDigits] at hc
  | cons x xs ih =>
    intro c hc
    by_cases hx : x.isDigit
    · simp [takeDigits, hx] at hc
      rcases hc with rfl | hc
      · exact hx
      · exact ih c hc
    · simp [takeDigits, hx] at hc

theorem takeDigits_all (l : List Char) (h : ∀ c ∈ l, c.isDigit = true) :
    takeDigits l = (l, []) := by
  induction l with
  | nil => rfl
  | cons x xs ih =>
    have hx : x.isDigit = true := h x (List.mem_cons_self x xs)
    have ih' := ih (fun c hc => h c (List.mem_cons_of_mem x hc))
    simp [takeDigits, hx, ih']

theorem isWs_not_digit (c : Char) (h : isWs c = true) : c.isDigit = false := by
  unfold isWs at h
  simp at h
  rcases h with ((((h | h) | h) | h) | h) | h <;> subst h <;> decide

theorem skipWs_digits (l : List Char) (hne : l ≠ []) (h : ∀ c ∈ l, c.isDigit = true) :
    skipWs l = l := by
  cases l with
  | nil => cases hne rfl
  | cons x xs =>
    have hx := h x (List.mem_cons_self x xs)
    have hws : isWs x = false := by
      cases hw : isWs x
      · rfl
      · rw [isWs_not_digit x hw] at hx; cases hx
    simp [skipWs, hws]

theorem digitsVal_digits (ds : List Char) (hne : ds ≠ []) (h : ∀ c ∈ ds, c.isDigit = true) :
    digitsVal ds = some (digitsToNat ds) := by
  unfold digitsVal
  rw [takeDigits_all ds h]
  cases ds with
  | nil => cases hne rfl
  | cons x xs => rfl

theorem parseIntJS_digits (ds : List Char) (hne : ds ≠ []) (h : ∀ c ∈ ds, c.isDigit = true) :
    parseIntJS ds = some ((digitsToNat ds : Nat) : Int) := by
  unfold parseIntJS
  rw [skipWs_digits ds hne h]
  cases ds with
  | nil => cases hne rfl
  | cons x xs =>
    have hx := h x (List.mem_cons_self x xs)
    have hxm : ¬(x = '-') := by intro e; subst e; exact absurd hx (by decide)
    have hxp : ¬(x = '+') := by intro e; subst e; exact absurd hx (by decide)
    simp only [hxm, hxp, if_false]
    rw [digitsVal_digits (x :: xs) hne h]
    rfl

theorem pageTail_spec (rest ds : List Char) (h : pageTail rest = some ds) :
    ds ≠ [] ∧ ∀ c ∈ ds, c.isDigit = true := by
  simp only [pageTail] at h
  split at h
  · exact Option.noConfusion h
  · rename_i hemp
    have hds := Option.some.inj h
    subst hds
    constructor
    · intro e
      rw [e] at hemp
      exact hemp rfl
    · exact takeDigits_digits _

theorem matchPageAt_spec (l ds : List Char) (h : matchPageAt l = some ds) :
    ds ≠ [] ∧ ∀ c ∈ ds, c.isDigit = true := by
  cases l with
  | nil => exact Option.noConfusion h
  | cons c0 l0 =>
  cases l0 with
  | nil => exact Option.noConfusion h
  | cons c1 l1 =>
  cases l1 with
  | nil => exact Option.noConfusion h
  | cons c2 l2 =>
  cases l2 with
  | nil => exact Option.noConfusion h
  | cons c3 rest =>
  replace h : (if (c0.toLower == 'p' && c1.toLower == 'a' && c2.toLower == 'g'
      && c3.toLower == 'e') = true then pageTail rest else none) = some ds := h
  by_cases hc : (c0.toLower == 'p' && c1.toLower == 'a' && c2.toLower == 'g'
      && c3.toLower == 'e') = true
  · rw [if_pos hc] at h
    exact pageTail_spec _ _ h
  · rw [if_neg hc] at h
    exact Option.noConfusion h

theorem findPageMatch_spec : ∀ l ds : List Char, findPageMatch l = some ds →
    ds ≠ [] ∧ ∀ c ∈ ds, c.isDigit = true := by
  intro l
  induction l with
  | nil => intro ds h; exact Option.noConfusion h
  | cons c cs ih =>
    intro ds h
    unfold findPageMatch at h
    cases hm : matchPageAt (c :: cs) with
    | some ds0 =>
      rw [hm] at h
      injection h with h'
      subst h'
      exact matchPageAt_spec _ _ hm
    | none =>
      rw [hm] at h
      exact ih ds h

theorem jump_page_found_in_range (ref ds : List Char) (n : Nat)
    (hm : findPageMatch ref = some ds) (h1 : 1 ≤ digitsToNat ds)
    (h2 : digitsToNat ds ≤ n) :
    jump ref n = some (digitsToNat ds) := by
  obtain ⟨hne, hdig⟩ := findPageMatch_spec ref ds hm
  have hnil : ds.isEmpty = false := by
    cases ds
    · cases hne rfl
    · rfl
  have hn0 : ¬(n = 0) := by omega
  unfold jump handleJumpToLocation
  rw [hm]
  unfold locationEffectTarget
  rw [parseIntJS_digits ds hne hdig]
  have hcond : 0 < ((digitsToNat ds : Nat) : Int) ∧
      ((digitsToNat ds : Nat) : Int) ≤ (n : Int) := by omega
  simp [hnil, hn0, hcond]

theorem jump_page_found_out_of_range (ref ds : List Char) (n : Nat)
    (hm : findPageMatch ref = some ds)
    (hout : digitsToNat ds = 0 ∨ n < digitsToNat ds) :
    jump ref n = none := by
  obtain ⟨hne, hdig⟩ := findPageMatch_spec ref ds hm
  have hnil : ds.isEmpty = false := by
    cases ds
    · cases hne rfl
    · rfl
  unfold jump handleJumpToLocation
  rw [hm]
  unfold locationEffectTarget
  by_cases hn : n = 0
  · simp [hnil, hn]
  · rw [parseIntJS_digits ds hne hdig]
    have hcond : ¬(0 < ((digitsToNat ds : Nat) : Int) ∧
        ((digitsToNat ds : Nat) : Int) ≤ (n : Int)) := by omega
    simp [hnil, hn, hcond]
    omega

theorem jump_no_number_no_target (ref : List Char) (n : Nat)
    (hm : findPageMatch ref = none) (hp : parseIntJS (stripHash ref) = none) :
    jump ref n = none := by
  unfold jump handleJumpToLocation
  rw [hm]
  unfold locationEffectTarget
  by_cases hemp : (stripHash ref).isEmpty = true
  · simp [hemp]
  · by_cases hn : n = 0
    · simp [hemp, hn]
    · simp [hemp, hn, hp]

theorem jump_digit_anchor (ref : List Char) (n : Nat) (t : Int)
    (hm : findPageMatch ref = none) (hp : parseIntJS (stripHash ref) = some t)
    (h0 : 0 < t) (hn : t ≤ (n : Int)) :
    jump ref n = some t.toNat := by
  have hne : stripHash ref ≠ [] := by
    intro e
    rw [e] at hp
    exact Option.noConfusion hp
  have hemp : (stripHash ref).isEmpty = false := by
    cases h : stripHash ref
    · cases hne h
    · rfl
  have hn0 : ¬(n = 0) := by omega
  unfold jump handleJumpToLocation
  rw [hm]
  unfold locationEffectTarget
  simp [hemp, hn0, hp, h0, hn]

/-- C6 (amended): jump parses the reference with the case-insensitive
pattern `page`, optional whitespace, optional `=`, optional whitespace, then
digits.  If a page number is found and lies within `[1, numPages]` that page
is scrolled into view and focused; a found page number outside the range is
a silent no-op.  If no page number is found, the reference with its first
`#` removed is handed to the viewer, which interprets a leading integer
(JS `parseInt`) as a page index: with no parseable integer the jump is a
silent no-op, while an anchor whose stripped form starts with an in-range
integer scrolls to that page rather than no-op-ing. -/
theorem c6_jump_resolution :
    (∀ (ref ds : List Char) (n : Nat), findPageMatch ref = some ds →
      1 ≤ digitsToNat ds → digitsToNat ds ≤ n → jump ref n = some (digitsToNat ds)) ∧
    (∀ (ref ds : List Char) (n : Nat), findPageMatch ref = some ds →
      (digitsToNat ds = 0 ∨ n < digitsToNat ds) → jump ref n = none) ∧
    (∀ (ref : List Char) (n : Nat), findPageMatch ref = none →
      parseIntJS (stripHash ref) = none → jump ref n = none) ∧
    (∀ (ref : List Char) (n : Nat) (t : Int), findPageMatch ref = none →
      parseIntJS (stripHash ref) = some t → 0 < t → t ≤ (n : Int) →
      jump ref n = some t.toNat) :=
  ⟨jump_page_found_in_range, jump_page_found_out_of_range,
   jump_no_number_no_target, jump_digit_anchor⟩

/-- C6 counterexample: the reference `#2-intro` contains no page pattern, so
per the claim it is an anchor key and — being unmatched — should be a silent
no-op; but on a 3-page document the code scrolls to page 2, because the
stripped anchor is fed through `parseInt`. -/
theorem c6_jump_counterexample :
    findPageMatch ("#2-intro".data) = none ∧
    jump ("#2-intro".data) 3 = some 2 := by
  constructor
  · decide
  · decide

/-- C6 witness: `page=3` on a 5-page document scrolls to page 3; `page=9`
on a 5-page document is a no-op; the digit-free anchor `#appendix` is a
no-op; the digit-leading anchor `#2-intro` scrolls to page 2. -/
theorem c6_jump_resolution_witness :
    jump ("page=3".data) 5 = some 3 ∧
    jump ("page=9".data) 5 = none ∧
    jump ("#appendix".data) 5 = none ∧
    jump ("#2-intro".data) 3 = some 2 :=
  ⟨c6_jump_resolution.1 ("page=3".data) ['3'] 5 (by decide) (by decide) (by decide),
   c6_jump_resolution.2.1 ("page=9".data) ['9'] 5 (by decide) (by decide),
   c6_jump_resolution.2.2.1 ("#appendix".data) 5 (by decide) (by decide),
   c6_jump_resolution.2.2.2 ("#2-intro".data) 3 2 (by decide) (by decide) (by decide) (by decide)⟩

theorem sessionStep_numPages (s : ViewerSnapshot) (e : SessionEvent) :
    (sessionStep s e).numPages = s.numPages := by
  cases e <;> rfl

theorem runSession_numPages (evs : List SessionEvent) :
    ∀ s : ViewerSnapshot, (evs.foldl sessionStep s).numPages = s.numPages := by
  induction evs with
  | nil => intro s; rfl
  | cons e rest ih =>
    intro s
    rw [List.foldl_cons, ih (sessionStep s e), sessionStep_numPages]

/-- C7: the jump target is a pure function of the reference string and the
page count — scrolling and page-render completions between two invocations
do not change it — and `page=3` on a document with at least 3 pages always
resolves to page 3. -/
theorem c7_jump_idempotent :
    (∀ (ref : List Char) (s : ViewerSnapshot) (evs : List SessionEvent),
      jumpOnState ref (evs.foldl sessionStep s) = jumpOnState ref s) ∧
    (∀ n : Nat, 3 ≤ n → jump ("page=3".data) n = some 3) := by
  constructor
  · intro ref s evs
    unfold jumpOnState
    rw [runSession_numPages]
  · intro n hn
    exact jump_page_found_in_range ("page=3".data) ['3'] n (by decide) (by decide) hn

/-- Session snapshot used to instantiate the idempotence statement. -/
def snapshotExample : ViewerSnapshot :=
  { numPages := 5, scrollPos := 0, renderedPages := [] }

/-- C7 witness: after scrolling and a page-render completion the target of
`page=3` is unchanged, and on the 5-page snapshot it is page 3. -/
theorem c7_jump_idempotent_witness :
    jumpOnState ("page=3".data)
      ([SessionEvent.scrollTo 120, SessionEvent.pageRendered 2].foldl
        sessionStep snapshotExample) = jumpOnState ("page=3".data) snapshotExample ∧
    jump ("page=3".data) 5 = some 3 :=
  ⟨c7_jump_idempotent.1 ("page=3".data) snapshotExample
      [SessionEvent.scrollTo 120, SessionEvent.pageRendered 2],
   c7_jump_idempotent.2 5 (by norm_num)⟩

/-- C9: from the default scale 0.9, five zoom-in steps of +0.1 followed by
eight zoom-out steps of −0.1 end at `max(0.5, 0.9 + 5·0.1 − 8·0.1)`. -/
theorem c9_zoom_sequence :
    List.foldl zoom defaultScale
      (List.replicate 5 ((1 : ℚ)/10) ++ List.replicate 8 (-((1 : ℚ)/10))) =
    max (1/2) (defaultScale + 5 * (1/10) - 8 * (1/10)) := by
  norm_num [zoom, defaultScale, List.replicate, min_def, max_def]

end DocuClear
